import Mathlib

/-!
Verification development for Botan's signature-configuration subsystem
(`src/lib/pubkey/pk_options.h`, `pk_options.cpp`, `pk_options_impl.cpp`).

The C++ record `PK_Signature_Options` is embedded as a Lean structure; the
legacy string parser (the `PK_Signature_Options` constructor taking an
algorithm name and a legacy parameter string) and the validator
`PK_Options_Checks::validate_for_hash_based_signature` are embedded as pure
functions threading the options record explicitly, with C++ exceptions
represented by `Except`.

The bodies of the fluent builder methods (`with_hash`, `with_padding`,
`with_prehash`, `with_context`, `with_provider`, `with_salt_size` and the
three boolean-flag setters) are not present in the repository snapshot (the
header declares only some of them, without definitions), so they are
modelled from the spec, as is the external `SCAN_Name` string tokenizer and
the `Signature_Format` handling of `PK_Signature_Options::_parse` (declared
at pk_options.h:122 but not defined in the snapshot).  Everything else is
translated directly from the source.  Exception payloads (message strings)
are not modelled; only the exception kind is.
-/

/-- The exception kinds thrown by this subsystem.  Message payloads are not
modelled. -/
inductive PKError where
  | Invalid_Argument : PKError
  | Invalid_State : PKError
  | Lookup_Error : PKError
deriving DecidableEq, Repr

/-- `Botan::Signature_Format` (only the two values used by `_parse`). -/
inductive Signature_Format where
  | Standard : Signature_Format
  | DerSequence : Signature_Format
deriving DecidableEq, Repr

/-- The signature-options record, from `PK_Signature_Options` in
pk_options.h together with the spec's data model (§3).  The header stores
the hash as a plain `std::string` with `""` meaning "unset"; that
string-with-sentinel is represented here as `Option String` (the accessor
`hash_function` recovers the header's view).  The slots `salt_size` and
`explicit_trailer_field`, used by the parser in pk_options.cpp but absent
from the header in the snapshot, are modelled from the spec's data model.
Context bytes are represented by the `String` whose bytes they are (both
C++ `with_context` overloads take the bytes of the string). -/
structure PK_Signature_Options where
  hash : Option String
  padding : Option String
  prehash_requested : Bool
  prehash_fn : Option String
  context : Option String
  provider : Option String
  salt_size : Option Nat
  deterministic : Bool
  der_encoded : Bool
  explicit_trailer_field : Bool
deriving DecidableEq, Repr

namespace PK_Signature_Options

/-- The default-constructed options object (`PK_Signature_Options()`), every
slot unset and every flag false. -/
def default : PK_Signature_Options :=
  { hash := none, padding := none, prehash_requested := false, prehash_fn := none,
    context := none, provider := none, salt_size := none,
    deterministic := false, der_encoded := false, explicit_trailer_field := false }

/-- Accessor `hash_function()` (pk_options.h:91): returns the stored hash
name; the header's member is a plain string defaulting to `""`, so an unset
hash reads as the empty string. -/
def hash_function (o : PK_Signature_Options) : String := o.hash.getD ""

/-- Accessor `using_padding()` (pk_options.h:109). -/
def using_padding (o : PK_Signature_Options) : Bool := o.padding.isSome

/-- Accessor `using_prehash()` (pk_options.h:107). -/
def using_prehash (o : PK_Signature_Options) : Bool := o.prehash_requested

/-- Accessor `using_context()` (pk_options.h:105). -/
def using_context (o : PK_Signature_Options) : Bool := o.context.isSome

/-- Accessor `using_provider()` (pk_options.h:111): set and different from
the sentinel `"base"`. -/
def using_provider (o : PK_Signature_Options) : Bool :=
  match o.provider with
  | some p => p ≠ "base"
  | none => false

/-- Accessor `using_der_encoded_signature()` (pk_options.h:101). -/
def using_der_encoded_signature (o : PK_Signature_Options) : Bool := o.der_encoded

/-- Accessor `using_deterministic_signature()` (pk_options.h:103). -/
def using_deterministic_signature (o : PK_Signature_Options) : Bool := o.deterministic

/-- Modelled from the spec: builder `with_hash` (not defined in the
snapshot).  Sets the hash slot; the name must be non-empty
(`Invalid_Argument`) and the slot must not already be set
(`Invalid_State`). -/
def with_hash (o : PK_Signature_Options) (name : String) :
    Except PKError PK_Signature_Options :=
  if name = "" then .error .Invalid_Argument
  else if o.hash.isSome then .error .Invalid_State
  else .ok { o with hash := some name }

/-- Modelled from the spec: builder `with_padding` (declared at
pk_options.h:33, body not in the snapshot).  Same discipline as
`with_hash`, on the padding slot. -/
def with_padding (o : PK_Signature_Options) (name : String) :
    Except PKError PK_Signature_Options :=
  if name = "" then .error .Invalid_Argument
  else if o.padding.isSome then .error .Invalid_State
  else .ok { o with padding := some name }

/-- Modelled from the spec: builder `with_prehash` (declared at
pk_options.h:48, body not in the snapshot).  Requests prehashing, with an
optional explicit prehash function; fails with `Invalid_State` if
prehashing was already requested. -/
def with_prehash (o : PK_Signature_Options) (ph : Option String) :
    Except PKError PK_Signature_Options :=
  if o.prehash_requested then .error .Invalid_State
  else .ok { o with prehash_requested := true, prehash_fn := ph }

/-- Modelled from the spec: builder `with_context` (declared at
pk_options.h:59/65, body not in the snapshot).  Sets the context bytes
(here: the string whose bytes they are); fails with `Invalid_State` if the
context is already set. -/
def with_context (o : PK_Signature_Options) (ctx : String) :
    Except PKError PK_Signature_Options :=
  if o.context.isSome then .error .Invalid_State
  else .ok { o with context := some ctx }

/-- Modelled from the spec: builder `with_provider` (declared at
pk_options.h:89, body not in the snapshot).  A no-op on the empty string;
otherwise sets the provider slot (stored verbatim; the sentinel `"base"` is
normalized away by the accessor `using_provider`), failing with
`Invalid_State` if already set. -/
def with_provider (o : PK_Signature_Options) (name : String) :
    Except PKError PK_Signature_Options :=
  if name = "" then .ok o
  else if o.provider.isSome then .error .Invalid_State
  else .ok { o with provider := some name }

/-- Modelled from the spec: builder `with_salt_size` (used by the parser,
not declared in the snapshot's header).  Sets the salt size; fails with
`Invalid_State` if already set. -/
def with_salt_size (o : PK_Signature_Options) (n : Nat) :
    Except PKError PK_Signature_Options :=
  if o.salt_size.isSome then .error .Invalid_State
  else .ok { o with salt_size := some n }

/-- Builder `with_deterministic_signature` (declared at pk_options.h:75):
sets the flag; idempotent, never fails. -/
def with_deterministic_signature (o : PK_Signature_Options) : PK_Signature_Options :=
  { o with deterministic := true }

/-- Builder `with_der_encoded_signature` (declared at pk_options.h:84):
sets the flag; idempotent, never fails. -/
def with_der_encoded_signature (o : PK_Signature_Options) : PK_Signature_Options :=
  { o with der_encoded := true }

/-- Modelled from the spec: builder `with_explicit_trailer_field` (used by
the parser, not declared in the snapshot's header): sets the flag;
idempotent, never fails. -/
def with_explicit_trailer_field (o : PK_Signature_Options) : PK_Signature_Options :=
  { o with explicit_trailer_field := true }

end PK_Signature_Options

/-- The accessor the spec describes for the hash slot, written from the
spec's words for comparison with the source's `hash_function`: "returns the
hash if set or fails with InvalidState if not". -/
def hash_function_name_spec (o : PK_Signature_Options) : Except PKError String :=
  match o.hash with
  | some h => .ok h
  | none => .error .Invalid_State

instance instDecEqExceptPK {ε α : Type} [DecidableEq ε] [DecidableEq α] :
    DecidableEq (Except ε α)
  | .ok x, .ok y =>
    match decEq x y with
    | isTrue h => isTrue (h ▸ rfl)
    | isFalse h => isFalse (fun hh => h (Except.ok.inj hh))
  | .ok _, .error _ => isFalse (fun hh => Except.noConfusion hh)
  | .error _, .ok _ => isFalse (fun hh => Except.noConfusion hh)
  | .error e, .error f =>
    match decEq e f with
    | isTrue h => isTrue (h ▸ rfl)
    | isFalse h => isFalse (fun hh => h (Except.error.inj hh))

/-- Structural prefix test on character lists (the semantics of
`std::string_view::starts_with` / `String.startsWith`, written by
structural recursion so that it evaluates by definitional reduction). -/
def listStarts : List Char → List Char → Bool
  | [], _ => true
  | _ :: _, [] => false
  | p :: ps, c :: cs => p = c && listStarts ps cs

/-- `s.starts_with p` on strings, via `listStarts`. -/
def strStarts (s p : String) : Bool := listStarts p.toList s.toList

/-- Decimal-digit accumulator for `strToNat` (structural recursion). -/
def digitsToNat : List Char → Nat → Option Nat
  | [], acc => some acc
  | c :: cs, acc =>
    if c.isDigit then digitsToNat cs (acc * 10 + (c.toNat - 48))
    else none

/-- Parses a non-empty all-decimal-digit string as a `Nat` (the semantics
of Botan's `to_u32bit` on in-range inputs, written so that it evaluates by
definitional reduction). -/
def strToNat (s : String) : Option Nat :=
  match s.toList with
  | [] => none
  | cs => digitsToNat cs 0

/-- Modelled from the spec: the external `SCAN_Name` structured-name
descriptor (a black-box dependency per the spec's §6): a leading scheme
name plus an ordered list of positional arguments. -/
structure SCAN_Name where
  algo_name : String
  args : List String
deriving DecidableEq, Repr

namespace SCAN_Name

/-- `SCAN_Name::arg_count()`. -/
def arg_count (r : SCAN_Name) : Nat := r.args.length

/-- `SCAN_Name::arg_count_between(lo, hi)`. -/
def arg_count_between (r : SCAN_Name) (lo hi : Nat) : Prop :=
  lo ≤ r.arg_count ∧ r.arg_count ≤ hi

instance (r : SCAN_Name) (lo hi : Nat) : Decidable (r.arg_count_between lo hi) :=
  inferInstanceAs (Decidable (_ ∧ _))

/-- `SCAN_Name::arg(i)`: fetch argument `i`, failing when it is absent. -/
def arg (r : SCAN_Name) (i : Nat) : Except PKError String :=
  match r.args[i]? with
  | some s => .ok s
  | none => .error .Invalid_Argument

/-- `SCAN_Name::arg(i, default)`: fetch argument `i` with a default when it
is absent. -/
def argD (r : SCAN_Name) (i : Nat) (dflt : String) : String :=
  (r.args[i]?).getD dflt

/-- `SCAN_Name::arg_as_integer(i)`: fetch argument `i` parsed as a
non-negative integer, failing when absent or not numeric. -/
def arg_as_integer (r : SCAN_Name) (i : Nat) : Except PKError Nat :=
  match r.args[i]? with
  | some s =>
    match strToNat s with
    | some n => .ok n
    | none => .error .Invalid_Argument
  | none => .error .Invalid_Argument

end SCAN_Name

/-- Splits a character list on commas at parenthesis depth zero (helper for
the modelled `SCAN_Name` tokenizer). -/
def splitScanArgs : List Char → Nat → List Char → List String
  | [], _, cur => [String.mk cur.reverse]
  | c :: rest, depth, cur =>
    if c = ',' ∧ depth = 0 then
      String.mk cur.reverse :: splitScanArgs rest 0 []
    else if c = '(' then
      splitScanArgs rest (depth + 1) (c :: cur)
    else if c = ')' then
      splitScanArgs rest (depth - 1) (c :: cur)
    else
      splitScanArgs rest depth (c :: cur)

/-- Modelled from the spec: the external tokenizer turning a string
`Name(arg0,arg1,...)` into a `SCAN_Name`.  A string without parentheses is
a bare name with no arguments; otherwise the text before the first `(` is
the name and the text between it and the trailing `)` is split on
top-level commas. -/
def scanParse (s : String) : SCAN_Name :=
  let cs := s.toList
  let name := cs.takeWhile (· ≠ '(')
  match cs.dropWhile (· ≠ '(') with
  | [] => { algo_name := s, args := [] }
  | _ :: inner =>
    let body := if inner.getLast? = some ')' then inner.dropLast else inner
    { algo_name := String.mk name,
      args := if body = [] then [] else splitScanArgs body 0 [] }

/-- The RSA padding alias table, from the `padding` lambda in
pk_options.cpp (lines 78-96). -/
def rsaPaddingAlias (alg : String) : String :=
  if alg = "EMSA_PKCS1" ∨ alg = "EMSA-PKCS1-v1_5" ∨ alg = "EMSA3" then "PKCS1v15"
  else if alg = "PSSR_Raw" then "PSS_Raw"
  else if alg = "PSSR" ∨ alg = "EMSA-PSS" ∨ alg = "PSS-MGF1" ∨ alg = "EMSA4" then "PSS"
  else if alg = "EMSA_X931" ∨ alg = "EMSA2" ∨ alg = "X9.31" then "X9.31"
  else alg

open PK_Signature_Options in
/-- The RSA branch of the legacy parser, from pk_options.cpp lines 74-168.
Note that the source's `if`/`else if` chain on the aliased padding name has
no final `else`: a padding name outside the recognized set leaves the
options object untouched. -/
def parseRSA (o : PK_Signature_Options) (req : SCAN_Name) :
    Except PKError PK_Signature_Options :=
  let padding := rsaPaddingAlias req.algo_name
  if padding = "Raw" then
    if req.arg_count = 0 then
      o.with_padding padding
    else if req.arg_count = 1 then do
      let o ← o.with_padding padding
      let a0 ← req.arg 0
      o.with_prehash (some a0)
    else
      .error .Invalid_Argument
  else if padding = "PKCS1v15" then
    if req.arg_count = 2 ∧ req.argD 0 "" = "Raw" then do
      let o ← o.with_padding padding
      let a0 ← req.arg 0
      let o ← o.with_hash a0
      let a1 ← req.arg 1
      o.with_prehash (some a1)
    else if req.arg_count = 1 then do
      let o ← o.with_padding padding
      let a0 ← req.arg 0
      o.with_hash a0
    else
      .error .Lookup_Error
  else if padding = "PSS_Raw" ∨ padding = "PSS" then
    if req.arg_count_between 1 3 ∧ req.argD 1 "MGF1" = "MGF1" then do
      let o ← o.with_padding padding
      let a0 ← req.arg 0
      let o ← o.with_hash a0
      if req.arg_count = 3 then do
        let n ← req.arg_as_integer 2
        o.with_salt_size n
      else
        pure o
    else
      .error .Lookup_Error
  else if padding = "ISO_9796_DS2" then
    if req.arg_count_between 1 3 then do
      let implicit := req.argD 1 "exp" = "imp"
      let o ← o.with_padding padding
      let a0 ← req.arg 0
      let o ← o.with_hash a0
      if req.arg_count = 3 then do
        let n ← req.arg_as_integer 2
        let o ← o.with_salt_size n
        if implicit then pure o else pure o.with_explicit_trailer_field
      else if ¬implicit then
        pure o.with_explicit_trailer_field
      else
        pure o
    else
      .error .Lookup_Error
  else if padding = "ISO_9796_DS3" then do
    let o ← o.with_padding padding
    if req.arg_count_between 1 2 then do
      let a0 ← req.arg 0
      let o ← o.with_hash a0
      if req.argD 1 "exp" ≠ "imp" then pure o.with_explicit_trailer_field else pure o
    else
      .error .Lookup_Error
  else if padding = "X9.31" then
    if req.arg_count = 1 then do
      let o ← o.with_padding padding
      let a0 ← req.arg 0
      o.with_hash a0
    else
      .error .Lookup_Error
  else
    pure o

open PK_Signature_Options in
/-- The Dilithium-family / SPHINCS+ branch of the legacy parser, from
pk_options.cpp lines 30-37. -/
def parsePQ (o : PK_Signature_Options) (params : String) :
    Except PKError PK_Signature_Options :=
  if params ≠ "" ∧ params ≠ "Randomized" ∧ params ≠ "Deterministic" then
    .error .Invalid_Argument
  else if params = "Deterministic" then
    .ok o.with_deterministic_signature
  else
    .ok o

/-- Splits the SM2 legacy parameter string at its first comma into
`(userid, hash)`, the hash defaulting to `"SM3"` when no comma is present
(pk_options.cpp lines 47-53). -/
def sm2SplitParams (params : String) : String × String :=
  let cs := params.toList
  match cs.dropWhile (· ≠ ',') with
  | [] => (params, "SM3")
  | _ :: post => (String.mk (cs.takeWhile (· ≠ ',')), String.mk post)

open PK_Signature_Options in
/-- The SM2 branch of the legacy parser, from pk_options.cpp lines 38-57. -/
def parseSM2 (o : PK_Signature_Options) (params : String) :
    Except PKError PK_Signature_Options :=
  if params = "" then
    o.with_hash "SM3"
  else do
    let p := sm2SplitParams params
    let o ← o.with_context p.1
    o.with_hash p.2

open PK_Signature_Options in
/-- The Ed25519 branch of the legacy parser, from pk_options.cpp lines
58-65. -/
def parseEd25519 (o : PK_Signature_Options) (params : String) :
    Except PKError PK_Signature_Options :=
  if params ≠ "" ∧ params ≠ "Identity" ∧ params ≠ "Pure" then
    if params = "Ed25519ph" then o.with_prehash none
    else o.with_prehash (some params)
  else
    .ok o

open PK_Signature_Options in
/-- The Ed448 branch of the legacy parser, from pk_options.cpp lines
66-73. -/
def parseEd448 (o : PK_Signature_Options) (params : String) :
    Except PKError PK_Signature_Options :=
  if params ≠ "" ∧ params ≠ "Identity" ∧ params ≠ "Pure" ∧ params ≠ "Ed448" then
    if params = "Ed448ph" then o.with_prehash none
    else o.with_prehash (some params)
  else
    .ok o

open PK_Signature_Options in
/-- The fall-through branch of the legacy parser for ECDSA/DSA/ECKCDSA/etc,
from pk_options.cpp lines 169-183, plus the `Signature_Format` handling,
which is modelled from the spec (the spec's §4.2: the format only affects
this branch, and `DerSequence` additionally sets `der_encoded`;
`PK_Signature_Options::_parse`, which receives the format, is declared at
pk_options.h:122 but not defined in the snapshot). -/
def parseEcdsaLike (o : PK_Signature_Options) (params : String)
    (format : Signature_Format) : Except PKError PK_Signature_Options :=
  if params ≠ "" then do
    let hash ←
      if strStarts params "EMSA1" then (scanParse params).arg 0
      else pure params
    let o ← o.with_hash hash
    if format = .DerSequence then pure o.with_der_encoded_signature else pure o
  else
    .ok o

/-- The legacy-descriptor parser: the algorithm-family dispatch of the
`PK_Signature_Options` constructor (pk_options.cpp lines 15-184), taking
the target `Signature_Format` as described by the spec's
`LegacyOptionsFactory.parse` (the provider argument of the constructor,
irrelevant to the claims, is omitted; the constructor only forwards it to
`with_provider`). -/
def parse (algo params : String) (format : Signature_Format) :
    Except PKError PK_Signature_Options :=
  let o := PK_Signature_Options.default
  if strStarts algo "Dilithium" ∨ algo = "SPHINCS+" then parsePQ o params
  else if algo = "SM2" then parseSM2 o params
  else if algo = "Ed25519" then parseEd25519 o params
  else if algo = "Ed448" then parseEd448 o params
  else if algo = "RSA" then parseRSA o (scanParse params)
  else parseEcdsaLike o params format

/-- `PK_Options_Checks::validate_for_hash_based_signature`
(pk_options_impl.cpp lines 15-34).  The C++ default `hash_fn = ""` stands
for "no acceptable hash". -/
def validate_for_hash_based_signature (o : PK_Signature_Options)
    (algo_name : String) (hash_fn : String) : Except PKError Unit :=
  if o.hash_function ≠ "" then
    if hash_fn = "" then .error .Invalid_Argument
    else if o.hash_function ≠ hash_fn then .error .Invalid_Argument
    else if o.using_padding then .error .Invalid_Argument
    else if o.using_prehash then .error .Invalid_Argument
    else .ok ()
  else
    if o.using_padding then .error .Invalid_Argument
    else if o.using_prehash then .error .Invalid_Argument
    else .ok ()

/-- State-passing view of `PK_Options_Checks::validate_for_hash_based_signature`:
the C++ function receives the options by const reference and invokes only
const accessors, so the options object after the call is the unchanged
input, returned here alongside the outcome. -/
def validate_for_hash_based_signature_st (o : PK_Signature_Options)
    (algo_name : String) (hash_fn : String) :
    Except PKError Unit × PK_Signature_Options :=
  (validate_for_hash_based_signature o algo_name hash_fn, o)

/-- The member function
`PK_Signature_Options::validate_for_hash_based_signature_algorithm`
(pk_options.cpp lines 186-198), which `take`s the hash slot: it clears the
hash as part of validating it, returning the mutated record. -/
def validate_for_hash_based_signature_algorithm (o : PK_Signature_Options)
    (algo_name : String) (acceptable_hash : Option String) :
    Except PKError PK_Signature_Options :=
  match o.hash with
  | some h =>
    if acceptable_hash = none then .error .Invalid_Argument
    else if some h ≠ acceptable_hash then .error .Invalid_Argument
    else .ok { o with hash := none }
  | none => .ok { o with hash := none }

/-- The hash name the fall-through (ECDSA-family) branch of the legacy
parser extracts from a non-empty parameter string: the first
`SCAN_Name` argument when the string starts with `"EMSA1"`, otherwise the
whole string (pk_options.cpp lines 172-179). -/
def ecdsaLegacyHash (params : String) : String :=
  if strStarts params "EMSA1" then (scanParse params).args.headD ""
  else params

/- ===================== Theorems ===================== -/

@[simp] theorem pkE_bind_ok {α β : Type} (a : α) (f : α → Except PKError β) :
    (Except.ok a >>= f) = f a := rfl

@[simp] theorem pkE_bind_error {α β : Type} (e : PKError) (f : α → Except PKError β) :
    ((Except.error e : Except PKError α) >>= f) = Except.error e := rfl

@[simp] theorem pkE_pure {α : Type} (a : α) : (pure a : Except PKError α) = Except.ok a := rfl

theorem parse_rsa_eq (s : String) (fmt : Signature_Format) :
    parse "RSA" s fmt = parseRSA PK_Signature_Options.default (scanParse s) := rfl

theorem parse_sm2_eq (s : String) (fmt : Signature_Format) :
    parse "SM2" s fmt = parseSM2 PK_Signature_Options.default s := rfl

theorem parse_ed25519_eq (s : String) (fmt : Signature_Format) :
    parse "Ed25519" s fmt = parseEd25519 PK_Signature_Options.default s := rfl

theorem SCAN_Name.arg_ok (r : SCAN_Name) (i : Nat) (h : i < r.arg_count) :
    r.arg i = .ok (r.argD i "") := by
  have h' : i < r.args.length := h
  unfold SCAN_Name.arg SCAN_Name.argD
  rw [List.getElem?_eq_getElem h']
  simp

theorem SCAN_Name.arg_as_integer_ok (r : SCAN_Name) (i : Nat) (v : Nat)
    (h : i < r.arg_count) (hv : strToNat (r.argD i "") = some v) :
    r.arg_as_integer i = .ok v := by
  have h' : i < r.args.length := h
  unfold SCAN_Name.argD at hv
  rw [List.getElem?_eq_getElem h'] at hv
  simp only [Option.getD_some] at hv
  unfold SCAN_Name.arg_as_integer
  rw [List.getElem?_eq_getElem h']
  simp [hv]

/-- Claim C10: the free function `validate_for_hash_based_signature` leaves
every slot of the options object unchanged (it receives the options by
const reference and reads them only through const accessors), so running it
a second time on the resulting state with the same arguments produces the
identical outcome. -/
theorem claim_C10_validator_frame (o : PK_Signature_Options)
    (algo_name hash_fn : String) :
    (validate_for_hash_based_signature_st o algo_name hash_fn).2 = o ∧
    validate_for_hash_based_signature_st
        (validate_for_hash_based_signature_st o algo_name hash_fn).2 algo_name hash_fn =
      validate_for_hash_based_signature_st o algo_name hash_fn :=
  ⟨rfl, rfl⟩

/-- Claim C4, counterexample: on an options value whose hash slot was never
set, the accessor `hash_function()` (pk_options.h:91) does not fail — it
returns the empty string — whereas the spec's accessor (modelled as
`hash_function_name_spec`) would fail with `Invalid_State`. -/
theorem claim_C4_counterexample :
    PK_Signature_Options.hash_function PK_Signature_Options.default = "" ∧
    hash_function_name_spec PK_Signature_Options.default = .error .Invalid_State :=
  ⟨rfl, rfl⟩

/-- Claim C4, amended: `hash_function()` is total: it returns the empty
string when the hash slot was never set, and exactly the stored hash name
when it was set. -/
theorem claim_C4_amended (o : PK_Signature_Options) (h : String) :
    (o.hash = none → o.hash_function = "") ∧
    (o.hash = some h → o.hash_function = h) := by
  constructor <;> intro hh <;> simp [PK_Signature_Options.hash_function, hh]

/-- Witness for the amended claim C4 at concrete inputs. -/
theorem claim_C4_witness :
    PK_Signature_Options.hash_function PK_Signature_Options.default = "" ∧
    PK_Signature_Options.hash_function
        { PK_Signature_Options.default with hash := some "SHA-256" } = "SHA-256" :=
  ⟨(claim_C4_amended PK_Signature_Options.default "").1 rfl,
   (claim_C4_amended { PK_Signature_Options.default with hash := some "SHA-256" } "SHA-256").2 rfl⟩

/-- Claim C5: `validate_for_hash_based_signature` fails with
`Invalid_Argument` exactly when the options specify a hash while no
acceptable hash is given (the C++ default `""`), or specify a hash
different from the acceptable one, or have the padding slot set, or request
prehashing; and `Invalid_Argument` is its only failure. -/
theorem claim_C5_validator_iff (o : PK_Signature_Options) (algo_name hash_fn : String) :
    (validate_for_hash_based_signature o algo_name hash_fn = .error .Invalid_Argument ↔
      (o.hash_function ≠ "" ∧ hash_fn = "") ∨
      (o.hash_function ≠ "" ∧ o.hash_function ≠ hash_fn) ∨
      o.using_padding = true ∨ o.using_prehash = true) ∧
    (validate_for_hash_based_signature o algo_name hash_fn = .ok () ∨
      validate_for_hash_based_signature o algo_name hash_fn = .error .Invalid_Argument) := by
  unfold validate_for_hash_based_signature
  constructor
  · split_ifs <;> simp_all
  · split_ifs <;> simp

/-- Claim C9: the Ed25519 legacy grammar: empty, `"Identity"` and `"Pure"`
request no prehash; `"Ed25519ph"` requests prehashing with the scheme
default; any other non-empty string requests prehashing with that string as
the explicit prehash function. -/
theorem claim_C9_ed25519 (params : String) (fmt : Signature_Format) :
    ((params = "" ∨ params = "Identity" ∨ params = "Pure") →
      parse "Ed25519" params fmt = .ok PK_Signature_Options.default) ∧
    (params = "Ed25519ph" →
      parse "Ed25519" params fmt =
        .ok { PK_Signature_Options.default with prehash_requested := true, prehash_fn := none }) ∧
    ((params ≠ "" ∧ params ≠ "Identity" ∧ params ≠ "Pure" ∧ params ≠ "Ed25519ph") →
      parse "Ed25519" params fmt =
        .ok { PK_Signature_Options.default with prehash_requested := true, prehash_fn := some params }) := by
  rw [parse_ed25519_eq]
  refine ⟨?_, ?_, ?_⟩
  · rintro (h | h | h) <;> simp [parseEd25519, h]
  · intro h; subst h; decide
  · rintro ⟨h1, h2, h3, h4⟩
    simp [parseEd25519, h1, h2, h3, h4, PK_Signature_Options.with_prehash,
      PK_Signature_Options.default]

/-- Witness for claim C9: `parse("Ed25519", "SHA-512", Standard)` requests
prehashing with explicit hash `"SHA-512"`. -/
theorem claim_C9_witness :
    parse "Ed25519" "SHA-512" .Standard =
      .ok { PK_Signature_Options.default with prehash_requested := true, prehash_fn := some "SHA-512" } :=
  (claim_C9_ed25519 "SHA-512" .Standard).2.2 (by decide)

theorem dropWhile_append_comma (pre post : List Char) (h : ',' ∉ pre) :
    (pre ++ ',' :: post).dropWhile (· ≠ ',') = ',' :: post := by
  induction pre with
  | nil => simp [List.dropWhile]
  | cons c cs ih =>
    have hc : c ≠ ',' := fun e => h (e ▸ List.mem_cons_self c cs)
    have hcs : ',' ∉ cs := fun e => h (List.mem_cons_of_mem c e)
    simpa [List.dropWhile, hc] using ih hcs

theorem takeWhile_append_comma (pre post : List Char) (h : ',' ∉ pre) :
    (pre ++ ',' :: post).takeWhile (· ≠ ',') = pre := by
  induction pre with
  | nil => simp [List.takeWhile]
  | cons c cs ih =>
    have hc : c ≠ ',' := fun e => h (e ▸ List.mem_cons_self c cs)
    have hcs : ',' ∉ cs := fun e => h (List.mem_cons_of_mem c e)
    simpa [List.takeWhile, hc] using ih hcs

theorem dropWhile_no_comma (l : List Char) (h : ',' ∉ l) :
    l.dropWhile (· ≠ ',') = [] := by
  induction l with
  | nil => simp [List.dropWhile]
  | cons c cs ih =>
    have hc : c ≠ ',' := fun e => h (e ▸ List.mem_cons_self c cs)
    have hcs : ',' ∉ cs := fun e => h (List.mem_cons_of_mem c e)
    simpa [List.dropWhile, hc] using ih hcs

/-- Claim C8: the SM2 legacy grammar: empty parameters give hash `"SM3"`
and no context; otherwise the text before the first comma becomes the
context and the text after it becomes the hash, the hash defaulting to
`"SM3"` (and the whole string becoming the context) when no comma is
present.  The last two conjuncts characterize `sm2SplitParams` as the
split at the first comma. -/
theorem claim_C8_sm2 (params : String) (fmt : Signature_Format) :
    (params = "" → parse "SM2" params fmt = .ok { PK_Signature_Options.default with hash := some "SM3" }) ∧
    (params ≠ "" → (sm2SplitParams params).2 ≠ "" →
      parse "SM2" params fmt =
        .ok { PK_Signature_Options.default with context := some (sm2SplitParams params).1, hash := some (sm2SplitParams params).2 }) ∧
    (∀ pre post : List Char, ',' ∉ pre →
      sm2SplitParams (String.mk (pre ++ ',' :: post)) = (String.mk pre, String.mk post)) ∧
    ((',' ∉ params.toList) → sm2SplitParams params = (params, "SM3")) := by
  refine ⟨?_, ?_, ?_, ?_⟩
  · intro h; subst h; rw [parse_sm2_eq]; decide
  · intro h1 h2
    rw [parse_sm2_eq]
    unfold parseSM2
    rw [if_neg h1]
    simp [PK_Signature_Options.with_context, PK_Signature_Options.with_hash, h2,
      PK_Signature_Options.default]
  · intro pre post hpre
    simp only [sm2SplitParams, String.toList]
    rw [dropWhile_append_comma pre post hpre, takeWhile_append_comma pre post hpre]
  · intro h
    simp only [sm2SplitParams]
    rw [dropWhile_no_comma params.toList h]

/-- Witness for claim C8: `parse("SM2", "UserA,SM3", Standard)` gives
context `"UserA"` and hash `"SM3"`. -/
theorem claim_C8_witness :
    parse "SM2" "UserA,SM3" .Standard =
      .ok { PK_Signature_Options.default with context := some "UserA", hash := some "SM3" } :=
  (claim_C8_sm2 "UserA,SM3" .Standard).2.1 (by decide) (by decide)

/-- Claim C2: once-only builder discipline, slot by slot.  For each
once-settable slot (hash, padding, prehash, context, provider, salt size):
invoking the setter when the slot is already set fails with
`Invalid_State`; invoking it on a value where the slot is unset succeeds
given valid input (a non-empty name where one is required) and the slot's
accessor then reports the value that was set.  (The `with_provider` setter
is, per the spec, a no-op on the empty string, so its conjuncts carry the
non-empty hypothesis.) -/
theorem claim_C2_once_only (o : PK_Signature_Options) (v : String) (n : Nat)
    (c : String) (ph : Option String) :
    ((v ≠ "" → o.hash.isSome = true → o.with_hash v = .error .Invalid_State) ∧
     (v ≠ "" → o.hash = none →
        o.with_hash v = .ok { o with hash := some v } ∧
        PK_Signature_Options.hash_function { o with hash := some v } = v)) ∧
    ((v ≠ "" → o.padding.isSome = true → o.with_padding v = .error .Invalid_State) ∧
     (v ≠ "" → o.padding = none →
        o.with_padding v = .ok { o with padding := some v } ∧
        ({ o with padding := some v } : PK_Signature_Options).padding = some v)) ∧
    ((o.prehash_requested = true → o.with_prehash ph = .error .Invalid_State) ∧
     (o.prehash_requested = false →
        o.with_prehash ph = .ok { o with prehash_requested := true, prehash_fn := ph } ∧
        ({ o with prehash_requested := true, prehash_fn := ph } : PK_Signature_Options).prehash_fn = ph ∧
        PK_Signature_Options.using_prehash { o with prehash_requested := true, prehash_fn := ph } = true)) ∧
    ((o.context.isSome = true → o.with_context c = .error .Invalid_State) ∧
     (o.context = none →
        o.with_context c = .ok { o with context := some c } ∧
        ({ o with context := some c } : PK_Signature_Options).context = some c)) ∧
    ((v ≠ "" → o.provider.isSome = true → o.with_provider v = .error .Invalid_State) ∧
     (v ≠ "" → o.provider = none →
        o.with_provider v = .ok { o with provider := some v } ∧
        ({ o with provider := some v } : PK_Signature_Options).provider = some v)) ∧
    ((o.salt_size.isSome = true → o.with_salt_size n = .error .Invalid_State) ∧
     (o.salt_size = none →
        o.with_salt_size n = .ok { o with salt_size := some n } ∧
        ({ o with salt_size := some n } : PK_Signature_Options).salt_size = some n)) := by
  refine ⟨⟨?_, ?_⟩, ⟨?_, ?_⟩, ⟨?_, ?_⟩, ⟨?_, ?_⟩, ⟨?_, ?_⟩, ⟨?_, ?_⟩⟩ <;>
    intros <;>
    simp_all [PK_Signature_Options.with_hash, PK_Signature_Options.with_padding,
      PK_Signature_Options.with_prehash, PK_Signature_Options.with_context,
      PK_Signature_Options.with_provider, PK_Signature_Options.with_salt_size,
      PK_Signature_Options.hash_function, PK_Signature_Options.using_prehash]

/-- Witness for claim C2: the hash and padding slots at concrete values: a
second set fails with `Invalid_State`, a first set succeeds and is
observable. -/
theorem claim_C2_witness :
    PK_Signature_Options.with_hash { PK_Signature_Options.default with hash := some "SHA-256" } "SHA-384" = .error .Invalid_State ∧
    PK_Signature_Options.with_hash PK_Signature_Options.default "SHA-384" = .ok { PK_Signature_Options.default with hash := some "SHA-384" } ∧
    PK_Signature_Options.with_padding { PK_Signature_Options.default with padding := some "PSS" } "PKCS1v15" = .error .Invalid_State ∧
    PK_Signature_Options.with_salt_size { PK_Signature_Options.default with salt_size := some 16 } 32 = .error .Invalid_State := by
  refine ⟨?_, ?_, ?_, ?_⟩
  · exact (claim_C2_once_only { PK_Signature_Options.default with hash := some "SHA-256" } "SHA-384" 0 "" none).1.1 (by decide) rfl
  · exact ((claim_C2_once_only PK_Signature_Options.default "SHA-384" 0 "" none).1.2 (by decide) rfl).1
  · exact (claim_C2_once_only { PK_Signature_Options.default with padding := some "PSS" } "PKCS1v15" 0 "" none).2.1.1 (by decide) rfl
  · exact (claim_C2_once_only { PK_Signature_Options.default with salt_size := some 16 } "x" 32 "" none).2.2.2.2.2.1 rfl

/-- Claim C3, counterexample: `parse("RSA", "Foobar", Standard)` succeeds
but does not set the padding slot to the passed-through scheme name — the
source's RSA `if`/`else if` chain has no final `else`, so an unrecognized
padding name leaves the options at their defaults. -/
theorem claim_C3_counterexample :
    parse "RSA" "Foobar" .Standard = .ok PK_Signature_Options.default ∧
    ¬ ∃ o, parse "RSA" "Foobar" .Standard = .ok o ∧ o.padding = some "Foobar" := by
  refine ⟨rfl, ?_⟩
  rintro ⟨o, ho, hp⟩
  rw [show parse "RSA" "Foobar" Signature_Format.Standard = .ok PK_Signature_Options.default from rfl] at ho
  cases Except.ok.inj ho
  simp [PK_Signature_Options.default] at hp

/-- Claim C3, amended: for every RSA legacy descriptor whose scheme name
after aliasing is none of the recognized padding schemes, parsing succeeds
without consulting any further arguments and returns the default options —
the scheme name is ignored and the padding slot is left unset. -/
theorem claim_C3_amended (s : String) (fmt : Signature_Format)
    (h : rsaPaddingAlias (scanParse s).algo_name ∉
      (["Raw", "PKCS1v15", "PSS_Raw", "PSS", "ISO_9796_DS2", "ISO_9796_DS3", "X9.31"] : List String)) :
    parse "RSA" s fmt = .ok PK_Signature_Options.default := by
  rw [parse_rsa_eq]
  simp only [List.mem_cons, List.not_mem_nil, or_false, not_or] at h
  obtain ⟨h1, h2, h3, h4, h5, h6, h7⟩ := h
  simp [parseRSA, h1, h2, h3, h4, h5, h6, h7]

/-- Witness for the amended claim C3 at the concrete scheme name
`"Foobar"`. -/
theorem claim_C3_witness :
    parse "RSA" "Foobar" .DerSequence = .ok PK_Signature_Options.default :=
  claim_C3_amended "Foobar" .DerSequence (by decide)

/-- Claim C1: for every algorithm name outside the specially-dispatched
families and every non-empty legacy parameter string (whose `EMSA1` form,
when used, carries a non-empty first argument), parsing with format
`DerSequence` yields options with `der_encoded` set, in addition to the
hash taken from the parameters: the first `SCAN_Name` argument when the
string starts with `"EMSA1"`, otherwise the whole string.  The format
handling is modelled from the spec (see `parseEcdsaLike`). -/
theorem claim_C1_ecdsa_derseq (algo params : String)
    (hD : strStarts algo "Dilithium" = false) (hS : algo ≠ "SPHINCS+")
    (hSM : algo ≠ "SM2") (h25 : algo ≠ "Ed25519") (h448 : algo ≠ "Ed448")
    (hR : algo ≠ "RSA") (hne : params ≠ "")
    (hemsa : strStarts params "EMSA1" = true →
      (scanParse params).args ≠ [] ∧ (scanParse params).args.headD "" ≠ "") :
    parse algo params .DerSequence =
      .ok { PK_Signature_Options.default with hash := some (ecdsaLegacyHash params), der_encoded := true } := by
  unfold parse
  rw [if_neg (by simp [hD, hS]), if_neg hSM, if_neg h25, if_neg h448, if_neg hR]
  unfold parseEcdsaLike
  rw [if_pos hne]
  by_cases he : strStarts params "EMSA1"
  · obtain ⟨hnil, hhd⟩ := hemsa he
    cases hl : (scanParse params).args with
    | nil => exact absurd hl hnil
    | cons a t =>
      have harg : (scanParse params).arg 0 = .ok a := by
        simp [SCAN_Name.arg, hl]
      have ha : a ≠ "" := by rw [hl] at hhd; simpa using hhd
      simp [he, harg, PK_Signature_Options.with_hash, ha,
        PK_Signature_Options.with_der_encoded_signature, ecdsaLegacyHash, hl,
        PK_Signature_Options.default]
  · have he' : strStarts params "EMSA1" = false := by simpa using he
    simp [he', PK_Signature_Options.with_hash, hne,
      PK_Signature_Options.with_der_encoded_signature, ecdsaLegacyHash,
      PK_Signature_Options.default]

/-- Witness for claim C1: `parse("ECDSA", "EMSA1(SHA-256)", DerSequence)`
gives hash `"SHA-256"` and `der_encoded = true`. -/
theorem claim_C1_witness :
    parse "ECDSA" "EMSA1(SHA-256)" .DerSequence =
      .ok { PK_Signature_Options.default with hash := some "SHA-256", der_encoded := true } := by
  have h := claim_C1_ecdsa_derseq "ECDSA" "EMSA1(SHA-256)" (by decide) (by decide)
    (by decide) (by decide) (by decide) (by decide) (by decide)
    (fun _ => ⟨by decide, by decide⟩)
  exact h

/-- Claim C6: the RSA `PSS`/`PSS_Raw` grammar: with 1 to 3 arguments whose
argument 1 (default `"MGF1"`) equals `"MGF1"`, parsing sets padding to the
aliased scheme, hash to argument 0 and — when a third argument is present —
salt size to argument 2 parsed as an integer; any other argument shape
fails with `Lookup_Error`. -/
theorem claim_C6_pss (s : String) (fmt : Signature_Format)
    (hp : rsaPaddingAlias (scanParse s).algo_name = "PSS" ∨
          rsaPaddingAlias (scanParse s).algo_name = "PSS_Raw") :
    (((scanParse s).arg_count_between 1 3 ∧ (scanParse s).argD 1 "MGF1" = "MGF1") →
      (scanParse s).argD 0 "" ≠ "" →
      ((scanParse s).arg_count = 3 → ∃ v, strToNat ((scanParse s).argD 2 "") = some v) →
      ∃ o, parse "RSA" s fmt = .ok o ∧
        o.padding = some (rsaPaddingAlias (scanParse s).algo_name) ∧
        o.hash = some ((scanParse s).argD 0 "") ∧
        ((scanParse s).arg_count = 3 → o.salt_size = strToNat ((scanParse s).argD 2 "")) ∧
        ((scanParse s).arg_count ≠ 3 → o.salt_size = none)) ∧
    (¬((scanParse s).arg_count_between 1 3 ∧ (scanParse s).argD 1 "MGF1" = "MGF1") →
      parse "RSA" s fmt = .error .Lookup_Error) := by
  rw [parse_rsa_eq]
  set req := scanParse s with hreq
  set p := rsaPaddingAlias req.algo_name with hpdef
  have hpne : p ≠ "" := by rcases hp with h | h <;> rw [h] <;> decide
  have hpRaw : ¬(p = "Raw") := by rcases hp with h | h <;> rw [h] <;> decide
  have hpP15 : ¬(p = "PKCS1v15") := by rcases hp with h | h <;> rw [h] <;> decide
  have hporp : p = "PSS_Raw" ∨ p = "PSS" := hp.symm
  constructor
  · rintro ⟨hshape, hmgf⟩ hh hsalt
    have h0 : 0 < req.arg_count := hshape.1
    have harg0 : req.arg 0 = .ok (req.argD 0 "") := SCAN_Name.arg_ok req 0 h0
    by_cases h3 : req.arg_count = 3
    · obtain ⟨v, hv⟩ := hsalt h3
      have hint : req.arg_as_integer 2 = .ok v :=
        SCAN_Name.arg_as_integer_ok req 2 v (by omega) hv
      refine ⟨{ PK_Signature_Options.default with padding := some p, hash := some (req.argD 0 ""), salt_size := some v }, ?_, rfl, rfl, fun _ => by rw [hv], fun hc => absurd h3 hc⟩
      simp only [parseRSA]
      rw [if_neg hpRaw, if_neg hpP15, if_pos hporp, if_pos ⟨hshape, hmgf⟩, ← hpdef]
      simp [PK_Signature_Options.with_padding, hpne, harg0,
        PK_Signature_Options.with_hash, hh, h3, hint,
        PK_Signature_Options.with_salt_size, PK_Signature_Options.default]
    · refine ⟨{ PK_Signature_Options.default with padding := some p, hash := some (req.argD 0 "") }, ?_, rfl, rfl, fun hc => absurd hc h3, fun _ => rfl⟩
      simp only [parseRSA]
      rw [if_neg hpRaw, if_neg hpP15, if_pos hporp, if_pos ⟨hshape, hmgf⟩, ← hpdef]
      simp [PK_Signature_Options.with_padding, hpne, harg0,
        PK_Signature_Options.with_hash, hh, h3, PK_Signature_Options.default]
  · intro hfail
    simp only [parseRSA]
    rw [if_neg hpRaw, if_neg hpP15, if_pos hporp, if_neg hfail]

/-- Witness for claim C6: `parse("RSA", "PSS-MGF1(SHA-256,MGF1,32)",
Standard)` gives padding `"PSS"`, hash `"SHA-256"` and salt size 32. -/
theorem claim_C6_witness :
    ∃ o, parse "RSA" "PSS-MGF1(SHA-256,MGF1,32)" .Standard = .ok o ∧
      o.padding = some "PSS" ∧ o.hash = some "SHA-256" ∧ o.salt_size = some 32 := by
  have h := (claim_C6_pss "PSS-MGF1(SHA-256,MGF1,32)" .Standard (Or.inl (by decide))).1
    ⟨by decide, by decide⟩ (by decide) (fun _ => ⟨32, by decide⟩)
  obtain ⟨o, h1, h2, h3, h4, _⟩ := h
  exact ⟨o, h1, h2, h3, by rw [h4 (by decide)]; decide⟩

/-- Claim C7: the RSA `ISO_9796_DS2` grammar: with 1 to 3 arguments,
argument 0 becomes the hash, the explicit-trailer-field flag is set unless
argument 1 (default `"exp"`) equals `"imp"`, and a third argument — in both
the implicit and the explicit case — becomes the salt size; any other
argument count fails with `Lookup_Error`. -/
theorem claim_C7_iso9796_ds2 (s : String) (fmt : Signature_Format)
    (hp : rsaPaddingAlias (scanParse s).algo_name = "ISO_9796_DS2") :
    ((scanParse s).arg_count_between 1 3 →
      (scanParse s).argD 0 "" ≠ "" →
      ((scanParse s).arg_count = 3 → ∃ v, strToNat ((scanParse s).argD 2 "") = some v) →
      ∃ o, parse "RSA" s fmt = .ok o ∧
        o.padding = some "ISO_9796_DS2" ∧
        o.hash = some ((scanParse s).argD 0 "") ∧
        (o.explicit_trailer_field = true ↔ (scanParse s).argD 1 "exp" ≠ "imp") ∧
        ((scanParse s).arg_count = 3 → o.salt_size = strToNat ((scanParse s).argD 2 "")) ∧
        ((scanParse s).arg_count ≠ 3 → o.salt_size = none)) ∧
    (¬(scanParse s).arg_count_between 1 3 → parse "RSA" s fmt = .error .Lookup_Error) := by
  rw [parse_rsa_eq]
  constructor
  · intro hshape hh hsalt
    have h0 : 0 < (scanParse s).arg_count := hshape.1
    have harg0 : (scanParse s).arg 0 = .ok ((scanParse s).argD 0 "") :=
      SCAN_Name.arg_ok _ 0 h0
    by_cases h3 : (scanParse s).arg_count = 3
    · obtain ⟨v, hv⟩ := hsalt h3
      have hint : (scanParse s).arg_as_integer 2 = .ok v :=
        SCAN_Name.arg_as_integer_ok _ 2 v (by omega) hv
      by_cases him : (scanParse s).argD 1 "exp" = "imp"
      · refine ⟨{ PK_Signature_Options.default with padding := some "ISO_9796_DS2", hash := some ((scanParse s).argD 0 ""), salt_size := some v }, ?_, rfl, rfl, by simp [him, PK_Signature_Options.default], fun _ => by rw [hv], fun hc => absurd h3 hc⟩
        simp [parseRSA, hp, hshape, harg0, hh, h3, him, hint,
          PK_Signature_Options.with_padding, PK_Signature_Options.with_hash,
          PK_Signature_Options.with_salt_size, PK_Signature_Options.default]
      · refine ⟨{ PK_Signature_Options.default with padding := some "ISO_9796_DS2", hash := some ((scanParse s).argD 0 ""), salt_size := some v, explicit_trailer_field := true }, ?_, rfl, rfl, by simp [him, PK_Signature_Options.default], fun _ => by rw [hv], fun hc => absurd h3 hc⟩
        simp [parseRSA, hp, hshape, harg0, hh, h3, him, hint,
          PK_Signature_Options.with_padding, PK_Signature_Options.with_hash,
          PK_Signature_Options.with_salt_size,
          PK_Signature_Options.with_explicit_trailer_field,
          PK_Signature_Options.default]
    · by_cases him : (scanParse s).argD 1 "exp" = "imp"
      · refine ⟨{ PK_Signature_Options.default with padding := some "ISO_9796_DS2", hash := some ((scanParse s).argD 0 "") }, ?_, rfl, rfl, by simp [him, PK_Signature_Options.default], fun hc => absurd hc h3, fun _ => rfl⟩
        simp [parseRSA, hp, hshape, harg0, hh, h3, him,
          PK_Signature_Options.with_padding, PK_Signature_Options.with_hash,
          PK_Signature_Options.default]
      · refine ⟨{ PK_Signature_Options.default with padding := some "ISO_9796_DS2", hash := some ((scanParse s).argD 0 ""), explicit_trailer_field := true }, ?_, rfl, rfl, by simp [him, PK_Signature_Options.default], fun hc => absurd hc h3, fun _ => rfl⟩
        simp [parseRSA, hp, hshape, harg0, hh, h3, him,
          PK_Signature_Options.with_padding, PK_Signature_Options.with_hash,
          PK_Signature_Options.with_explicit_trailer_field,
          PK_Signature_Options.default]
  · intro hfail
    simp [parseRSA, hp, hfail]

/-- Witness for claim C7: `parse("RSA", "ISO_9796_DS2(SHA-1,imp,20)",
Standard)` gives hash `"SHA-1"`, salt size 20 and no explicit trailer
field. -/
theorem claim_C7_witness :
    ∃ o, parse "RSA" "ISO_9796_DS2(SHA-1,imp,20)" .Standard = .ok o ∧
      o.padding = some "ISO_9796_DS2" ∧ o.hash = some "SHA-1" ∧
      o.explicit_trailer_field = false ∧ o.salt_size = some 20 := by
  have h := (claim_C7_iso9796_ds2 "ISO_9796_DS2(SHA-1,imp,20)" .Standard (by decide)).1
    (by constructor <;> decide) (by decide) (fun _ => ⟨20, by decide⟩)
  obtain ⟨o, h1, h2, h3, h4, h5, _⟩ := h
  refine ⟨o, h1, h2, h3, ?_, by rw [h5 (by decide)]; decide⟩
  have : ¬ o.explicit_trailer_field = true := fun e => by
    have := h4.mp e
    exact this (by decide)
  simpa using this

/-- Witness for claim C5: an options value with padding set is rejected
with `Invalid_Argument` for any algorithm name (here `"Falcon"`). -/
theorem claim_C5_witness :
    validate_for_hash_based_signature { PK_Signature_Options.default with padding := some "PSS" } "Falcon" "" = .error .Invalid_Argument :=
  (claim_C5_validator_iff { PK_Signature_Options.default with padding := some "PSS" } "Falcon" "").1.mpr
    (Or.inr (Or.inr (Or.inl (by decide))))

/-- Witness for claim C10 at a concrete options value: the validator leaves
the options unchanged. -/
theorem claim_C10_witness :
    (validate_for_hash_based_signature_st { PK_Signature_Options.default with hash := some "SHA-256" } "Falcon" "").2 = { PK_Signature_Options.default with hash := some "SHA-256" } :=
  (claim_C10_validator_frame { PK_Signature_Options.default with hash := some "SHA-256" } "Falcon" "").1
